import Mathlib

/-!
Verification of the Adaptive Session Planning & Memory subsystem of the
ATIC repository (src/sessions/session_manager.py, src/memory/memory_bank.py).

The Python code is shallowly embedded: each method becomes an executable
Lean definition over explicit state; SQLite REAL columns are modelled as ℚ,
TEXT timestamp columns as String compared lexicographically (which matches
SQLite's byte-wise comparison of ASCII ISO-8601 timestamps); Python `dict`s
keyed by id become association lists with Python-dict update semantics
(replace in place, append when new).
-/

namespace Atic

/-- Python's substring test `needle in hay`, on unpacked character lists. -/
def subAux (needle : List Char) : List Char → Bool
  | [] => needle.isEmpty
  | c :: rest => needle.isPrefixOf (c :: rest) || subAux needle rest

/-- Python's substring test `needle in hay` for strings. -/
def strContains (hay needle : String) : Bool := subAux needle.data hay.data

/-- Python's `str.strip()` (with no argument): drop leading and trailing
whitespace. -/
def strTrim (s : String) : String :=
  String.mk ((s.data.dropWhile Char.isWhitespace).reverse.dropWhile Char.isWhitespace).reverse

/-- Python's `str.lower()`, character by character (the keyword tables are
pure ASCII, where the two agree). -/
def strToLower (s : String) : String := String.mk (s.data.map Char.toLower)

/-- SQLite's byte-wise `<` on TEXT columns, which on the ASCII ISO-8601
timestamps stored by the memory bank is code-point lexicographic order. -/
def charsLt : List Char → List Char → Bool
  | [], [] => false
  | [], _ :: _ => true
  | _ :: _, [] => false
  | c :: cs, d :: ds =>
    if c.toNat < d.toNat then true
    else if d.toNat < c.toNat then false
    else charsLt cs ds

/-- `strLt a b`: the TEXT comparison `a < b` used by the SQL queries. -/
def strLt (a b : String) : Bool := charsLt a.data b.data

/-- The extraction-results dictionary built by
`SessionManager._perform_context_engineering` (session_manager.py:242-251). -/
structure Extraction where
  required_technical_skills : List String
  preferred_skills : List String
  seniority_indicators : List String
  responsibility_categories : List String
  technology_stack : List String
  soft_skills : List String
  interview_focus_areas : List String
  complexity_level : String
deriving DecidableEq, Repr

/-- The `technical_keywords` dict (session_manager.py:260-266), in Python
insertion order. -/
def technical_keywords : List (String × List String) :=
  [("programming_languages",
      ["python", "javascript", "java", "c++", "c#", "go", "rust", "typescript", "php", "ruby"]),
   ("frameworks",
      ["react", "angular", "vue", "django", "flask", "spring", "express", "laravel", "rails"]),
   ("databases",
      ["sql", "mysql", "postgresql", "mongodb", "redis", "elasticsearch", "dynamodb"]),
   ("cloud_platforms",
      ["aws", "azure", "gcp", "google cloud", "docker", "kubernetes", "terraform"]),
   ("tools",
      ["git", "jenkins", "ci/cd", "microservices", "api", "rest", "graphql"])]

/-- The `seniority_indicators` dict (session_manager.py:273-277), in order. -/
def seniority_groups : List (String × List String) :=
  [("senior", ["senior", "lead", "principal", "architect", "5+ years", "mentor", "leadership"]),
   ("mid", ["mid-level", "3-5 years", "experienced", "solid experience"]),
   ("junior", ["junior", "entry-level", "0-2 years", "new graduate", "recent graduate"])]

/-- The `responsibility_keywords` dict (session_manager.py:289-294), in order. -/
def responsibility_keywords : List (String × List String) :=
  [("system_design", ["system design", "architecture", "scalable", "distributed", "microservices"]),
   ("coding", ["coding", "programming", "development", "implementation", "algorithms"]),
   ("collaboration", ["collaborate", "team", "cross-functional", "communication"]),
   ("leadership", ["mentor", "lead", "guide", "technical leadership"])]

/-- `_get_default_extraction_template` (session_manager.py:494-505). -/
def get_default_extraction_template : Extraction :=
  { required_technical_skills := ["Problem Solving", "Programming", "System Design"]
    preferred_skills := ["Communication", "Teamwork"]
    seniority_indicators := ["mid-level"]
    responsibility_categories := ["coding", "collaboration"]
    technology_stack := ["General Programming"]
    soft_skills := ["Communication"]
    interview_focus_areas := ["coding_problems", "technical_knowledge"]
    complexity_level := "intermediate" }

/-- The technology-stack accumulation loop (session_manager.py:268-270):
for each keyword category in order, every keyword occurring in the
lower-cased description is appended. -/
def tech_stack_of (jd_lower : String) : List String :=
  (technical_keywords.map (fun p => p.2.filter (fun kw => strContains jd_lower kw))).flatten

/-- The seniority-detection loop (session_manager.py:279-286): the first
group with any matching indicator wins (recording which indicators matched);
the default is `mid` with no recorded indicators. -/
def detect_seniority : List (String × List String) → String → String × List String
  | [], _ => ("mid", [])
  | (level, inds) :: rest, jd_lower =>
    if inds.any (fun i => strContains jd_lower i) then
      (level, inds.filter (fun i => strContains jd_lower i))
    else detect_seniority rest jd_lower

/-- The responsibility-category loop (session_manager.py:296-298). -/
def responsibility_categories_of (jd_lower : String) : List String :=
  (responsibility_keywords.filter (fun p => p.2.any (fun kw => strContains jd_lower kw))).map
    Prod.fst

/-- `SessionManager._perform_context_engineering` (session_manager.py:227-328):
whitespace-only descriptions return the default template; otherwise keyword
extraction, seniority detection, focus-area derivation, complexity level,
and the first-6/remainder required/preferred split. -/
def perform_context_engineering (job_description : String) : Extraction :=
  if strTrim job_description = "" then get_default_extraction_template
  else
    let jd_lower := strToLower job_description
    let all_skills := tech_stack_of jd_lower
    let sen := detect_seniority seniority_groups jd_lower
    let resp := responsibility_categories_of jd_lower
    let focus₀ :=
      (if all_skills ≠ [] then ["technical_knowledge"] else []) ++
      (if "coding" ∈ resp then ["coding_problems"] else []) ++
      (if "system_design" ∈ resp then ["system_design"] else []) ++
      (if "leadership" ∈ resp then ["behavioral_leadership"] else [])
    { required_technical_skills := all_skills.take 6
      preferred_skills := all_skills.drop 6
      seniority_indicators := sen.2
      responsibility_categories := resp
      technology_stack := all_skills
      soft_skills := []
      interview_focus_areas := if focus₀ = [] then ["general_technical"] else focus₀
      complexity_level :=
        if sen.1 = "senior" ∨ 3 < resp.length then "advanced"
        else if sen.1 = "junior" then "beginner"
        else "intermediate" }

/-- The experience-assessment record returned by
`SessionManager._gather_experience_assessment` (session_manager.py:163-172).
The interactive gathering itself is I/O; the planner only reads these
fields.  `experience_level` is the stored value of the
`'experience_level'` key (set to `_categorize_experience_level(years)`
by the gathering step). -/
structure ExperienceData where
  years : Nat
  field : String
  current_role : String
  self_assessment : List (String × Nat)
  experience_level : String
deriving DecidableEq, Repr

/-- `_categorize_experience_level` (session_manager.py:485-492). -/
def categorize_experience_level (years : Nat) : String :=
  if years ≤ 2 then "junior" else if years ≤ 5 then "mid" else "senior"

/-- The target-job record returned by
`_gather_job_description_analysis` (session_manager.py:218-225). -/
structure JobData where
  company : String
  role : String
  description : String
  timeline : String
  description_length : Nat
  collected_at : String
deriving DecidableEq, Repr

/-- `_calculate_initial_difficulty` (session_manager.py:507-518). -/
def calculate_initial_difficulty (experience_data : ExperienceData)
    (extracted_skills : Extraction) : String :=
  let user_level := experience_data.experience_level
  let job_complexity := extracted_skills.complexity_level
  if user_level = "senior" ∧ job_complexity = "advanced" then "advanced"
  else if user_level = "junior" ∨ job_complexity = "beginner" then "beginner"
  else "intermediate"

/-- The `seniority_levels` dict lookup `.get(s, 2)` in
`_match_difficulty_to_gap` (session_manager.py:522-525). -/
def seniority_score (s : String) : Nat :=
  if s = "junior" then 1 else if s = "mid" then 2 else if s = "senior" then 3 else 2

/-- `_match_difficulty_to_gap` (session_manager.py:520-530). -/
def match_difficulty_to_gap (user_seniority job_seniority : String) : String :=
  if seniority_score user_seniority < seniority_score job_seniority then job_seniority
  else user_seniority

/-- `_calculate_confidence_score` (session_manager.py:532-539): mean of the
self-assessment values normalised to 0-1, defaulting to 0.5. -/
def calculate_confidence_score (experience_data : ExperienceData) : ℚ :=
  let sa := experience_data.self_assessment
  if sa = [] then 1/2
  else ((sa.map (fun p => (p.2 : ℚ))).sum / sa.length) / 5

/-- One entry of the `session_phases` list (session_manager.py:360-389). -/
structure Phase where
  phase : String
  duration_minutes : Nat
  question_count : Nat
  difficulty : String
deriving DecidableEq, Repr

/-- The conditional phase construction of `_create_adaptive_interview_plan`
(session_manager.py:357-391), in the source's fixed append order. -/
def session_phases (user_seniority job_seniority : String)
    (focus_areas : List String) : List Phase :=
  (if "coding_problems" ∈ focus_areas then
      [⟨"coding_assessment", 30, 2, match_difficulty_to_gap user_seniority job_seniority⟩]
    else []) ++
  (if "system_design" ∈ focus_areas then [⟨"system_design", 25, 1, job_seniority⟩] else []) ++
  (if "technical_knowledge" ∈ focus_areas then
      [⟨"technical_concepts", 15, 3, user_seniority⟩]
    else []) ++
  (if "behavioral_leadership" ∈ focus_areas ∨ user_seniority ∈ (["mid", "senior"] : List String)
    then [⟨"behavioral", 10, 2, user_seniority⟩] else [])

/-- The `category_mapping` lookup of `_map_focus_to_question_categories`
(session_manager.py:543-549), with `['general']` as the `.get` default. -/
def question_category_map (focus : String) : List String :=
  if focus = "coding_problems" then ["algorithms", "data_structures", "problem_solving"]
  else if focus = "system_design" then ["scalability", "architecture", "trade_offs"]
  else if focus = "technical_knowledge" then ["concepts", "best_practices", "tools"]
  else if focus = "behavioral_leadership" then ["leadership", "teamwork", "communication"]
  else if focus = "general_technical" then ["algorithms", "concepts", "problem_solving"]
  else ["general"]

/-- `_map_focus_to_question_categories` (session_manager.py:541-555).  The
source deduplicates through `list(set(...))`, whose iteration order Python
leaves unspecified; `dedup` fixes the first-occurrence order. -/
def map_focus_to_question_categories (focus_areas : List String) : List String :=
  ((focus_areas.map question_category_map).flatten).dedup

/-- The `adaptive_parameters` dict (session_manager.py:395-405). -/
structure AdaptiveParameters where
  initial_difficulty : String
  adjustment_threshold : ℚ
  max_difficulty_jumps : Nat
  experience_years : Nat
  field_expertise : String
  target_role_complexity : String
  self_assessed_confidence : ℚ
deriving DecidableEq, Repr

/-- The interview-plan dict built by `_create_adaptive_interview_plan`
(session_manager.py:342-417). -/
structure InterviewPlan where
  session_structure : List Phase
  question_categories : List String
  focus_areas : List String
  estimated_duration : Nat
  adaptive_parameters : AdaptiveParameters
deriving DecidableEq, Repr

/-- `_create_adaptive_interview_plan` (session_manager.py:330-417).  The
`job_data` argument is accepted but, as in the source, never read. -/
def create_adaptive_interview_plan (experience_data : ExperienceData)
    (_job_data : JobData) (extracted_skills : Extraction) : InterviewPlan :=
  let user_seniority := experience_data.experience_level
  let job_seniority := extracted_skills.complexity_level
  let focus_areas := extracted_skills.interview_focus_areas
  let phases := session_phases user_seniority job_seniority focus_areas
  { session_structure := phases
    question_categories := map_focus_to_question_categories focus_areas
    focus_areas := focus_areas
    estimated_duration := (phases.map Phase.duration_minutes).sum
    adaptive_parameters :=
      { initial_difficulty := calculate_initial_difficulty experience_data extracted_skills
        adjustment_threshold := 3/10
        max_difficulty_jumps := 1
        experience_years := experience_data.years
        field_expertise := experience_data.field
        target_role_complexity := job_seniority
        self_assessed_confidence := calculate_confidence_score experience_data } }

/-- A row of the `user_profiles` table (memory_bank.py:54-66); the JSON
blob columns are omitted, the typed columns kept. -/
structure ProfileRow where
  user_id : String
  created_at : String
  last_updated : String
  experience_years : Nat
  technical_field : String
  current_role : String
deriving DecidableEq, Repr

/-- A row of the `sessions` table (memory_bank.py:69-82), typed columns. -/
structure SessionRow where
  session_id : String
  user_id : String
  created_at : String
  completed_at : Option String
  status : String
  target_company : String
  target_role : String
  difficulty_level : String
deriving DecidableEq, Repr

/-- A row of the `performance_metrics` table (memory_bank.py:85-98);
`metric_value REAL` is modelled as ℚ. -/
structure MetricRow where
  session_id : String
  user_id : String
  recorded_at : String
  category : String
  metric_name : String
  metric_value : ℚ
deriving DecidableEq, Repr

/-- The database state of the `MemoryBank`: the three tables the verified
operations touch (`learning_adaptations` and `question_performance` are
never read or purged by them). -/
structure MemoryState where
  user_profiles : List ProfileRow
  sessions : List SessionRow
  performance_metrics : List MetricRow
deriving DecidableEq, Repr

/-- `MemoryBank.cleanup_old_data` (memory_bank.py:657-697) with the computed
cutoff made explicit: DELETE the performance-metric rows with
`recorded_at < cutoff`, then the session rows with `created_at < cutoff AND
status = 'completed'`; return the new state and the summed rowcounts. -/
def cleanup_old_data (cutoff : String) (s : MemoryState) : MemoryState × Nat :=
  let deleted_metrics := s.performance_metrics.countP (fun m => strLt m.recorded_at cutoff)
  let kept_metrics := s.performance_metrics.filter (fun m => !strLt m.recorded_at cutoff)
  let deleted_sessions :=
    s.sessions.countP (fun r => strLt r.created_at cutoff && r.status == "completed")
  let kept_sessions :=
    s.sessions.filter (fun r => !(strLt r.created_at cutoff && r.status == "completed"))
  ({ s with performance_metrics := kept_metrics, sessions := kept_sessions },
    deleted_metrics + deleted_sessions)

/-- Insertion step for the `ORDER BY recorded_at ASC` of the insights query
(memory_bank.py:396-401). -/
def insert_by_recorded_at (m : MetricRow) : List MetricRow → List MetricRow
  | [] => [m]
  | x :: xs =>
    if strLt m.recorded_at x.recorded_at then m :: x :: xs else x :: insert_by_recorded_at m xs

/-- `ORDER BY recorded_at ASC` (stable; SQLite leaves tie order
unspecified). -/
def sort_by_recorded_at (l : List MetricRow) : List MetricRow :=
  l.foldr insert_by_recorded_at []

/-- The rows returned by the insights query (memory_bank.py:396-401): the
user's `category_score` metric rows in `recorded_at` order. -/
def user_category_metrics (user_id : String) (s : MemoryState) : List MetricRow :=
  sort_by_recorded_at (s.performance_metrics.filter
    (fun m => m.user_id == user_id && m.metric_name == "category_score"))

/-- One step of the grouping loop (memory_bank.py:429-436): append the score
to the category's entry, creating the entry on first sight. -/
def add_score (acc : List (String × List ℚ)) (cat : String) (v : ℚ) : List (String × List ℚ) :=
  match acc with
  | [] => [(cat, [v])]
  | (c, s) :: rest => if c = cat then (c, s ++ [v]) :: rest else (c, s) :: add_score rest cat v

/-- The `category_performance` dict (memory_bank.py:429-436): scores grouped
by category, categories in first-seen order, scores in row order. -/
def group_scores (ms : List MetricRow) : List (String × List ℚ) :=
  ms.foldl (fun acc m => add_score acc m.category m.metric_value) []

/-- The grouped per-category score lists the insight loop iterates over. -/
def category_performance (user_id : String) (s : MemoryState) : List (String × List ℚ) :=
  group_scores (user_category_metrics user_id s)

/-- `sum(scores) / len(scores)` (memory_bank.py:442). -/
def avg_of (scores : List ℚ) : ℚ := scores.sum / scores.length

/-- `scores[-1] - scores[0]` (memory_bank.py:441). -/
def trend_of (scores : List ℚ) : ℚ := scores.getLast?.getD 0 - scores.head?.getD 0

/-- The trend label (memory_bank.py:447): `improving` above the +0.1 band,
`declining` below -0.1, `stable` inside. -/
def trend_label_of (t : ℚ) : String :=
  if 1/10 < t then "improving" else if t < -(1/10) then "declining" else "stable"

/-- One value of the `performance_trends` dict (memory_bank.py:444-449). -/
structure TrendEntry where
  current_score : ℚ
  average_score : ℚ
  trend : String
  sessions_tracked : Nat
deriving DecidableEq, Repr

/-- The trend entry recorded for a category with at least two scores
(memory_bank.py:444-449). -/
def mk_trend_entry (scores : List ℚ) : TrendEntry :=
  { current_score := scores.getLast?.getD 0
    average_score := avg_of scores
    trend := trend_label_of (trend_of scores)
    sessions_tracked := scores.length }

/-- The `performance_trends` accumulated by the loop at
memory_bank.py:439-449: one entry per category with `len(scores) >= 2`,
in iteration order. -/
def trends_of (cp : List (String × List ℚ)) : List (String × TrendEntry) :=
  cp.filterMap (fun p => if 2 ≤ p.2.length then some (p.1, mk_trend_entry p.2) else none)

/-- The `strong_areas` accumulated at memory_bank.py:451-453: inside the
`len(scores) >= 2` block, categories with `avg_score >= 0.7`. -/
def strong_areas_of (cp : List (String × List ℚ)) : List String :=
  cp.filterMap (fun p =>
    if 2 ≤ p.2.length ∧ 7/10 ≤ avg_of p.2 then some p.1 else none)

/-- The `improvement_areas` accumulated at memory_bank.py:451-455: inside
the `len(scores) >= 2` block, categories with `avg_score < 0.5` (the
`elif` branch; `avg >= 0.7` and `avg < 0.5` cannot overlap). -/
def improvement_areas_of (cp : List (String × List ℚ)) : List String :=
  cp.filterMap (fun p =>
    if 2 ≤ p.2.length ∧ avg_of p.2 < 1/2 then some p.1 else none)

/-- The insights dict of `MemoryBank.get_learning_insights`
(memory_bank.py:405-413). -/
structure LearningInsights where
  user_id : String
  total_sessions : Nat
  performance_trends : List (String × TrendEntry)
  improvement_areas : List String
  strong_areas : List String
  learning_velocity : String
  recommendations : List String
deriving DecidableEq, Repr

/-- `_generate_learning_recommendations` (memory_bank.py:714-739). -/
def generate_learning_recommendations (improvement_areas strong_areas : List String)
    (total_sessions : Nat) : List String :=
  let recs := (improvement_areas.take 3).map
    (fun a => "Focus on improving " ++ a.replace "_" " " ++ " skills")
  let recs := recs ++
    (if total_sessions < 3 then ["Complete more practice sessions to build momentum"]
     else if 5 ≤ total_sessions then ["Consider tackling more advanced difficulty levels"]
     else [])
  let recs := recs ++
    (match strong_areas.head? with
     | some a => ["Leverage your strength in " ++ a.replace "_" " " ++ " for complex problems"]
     | none => [])
  if recs = [] then ["Continue regular practice to build and maintain skills"] else recs

/-- The insight shell returned when the user has no metric rows
(memory_bank.py:405-416). -/
def empty_insights (user_id : String) : LearningInsights :=
  { user_id := user_id, total_sessions := 0, performance_trends := []
    improvement_areas := [], strong_areas := [], learning_velocity := "moderate"
    recommendations := [] }

/-- The completed-session COUNT(*) query (memory_bank.py:419-425). -/
def completed_session_count (user_id : String) (s : MemoryState) : Nat :=
  (s.sessions.filter (fun r => r.user_id == user_id && r.status == "completed")).length

/-- `MemoryBank.get_learning_insights` (memory_bank.py:382-464). -/
def get_learning_insights (user_id : String) (s : MemoryState) : LearningInsights :=
  let metrics := user_category_metrics user_id s
  if metrics = [] then empty_insights user_id
  else
    let cp := group_scores metrics
    let strong := strong_areas_of cp
    let improvement := improvement_areas_of cp
    let total := completed_session_count user_id s
    { user_id := user_id
      total_sessions := total
      performance_trends := trends_of cp
      improvement_areas := improvement
      strong_areas := strong
      learning_velocity := "moderate"
      recommendations := generate_learning_recommendations improvement strong total }

/-- One record of a session's `agent_interactions` log
(session_manager.py:438-443). -/
structure AgentInteraction where
  timestamp : String
  agent : String
  interaction_type : String
deriving DecidableEq, Repr

/-- The session dict built by `initialize_session`
(session_manager.py:52-60) and mutated through the lifecycle.  Keys the
code adds only later (`error`, `completed_at`, `last_updated`, the
profile/plan sub-dicts) are Options, `none` while the key is absent. -/
structure SessionData where
  session_id : String
  created_at : String
  status : String
  error : Option String
  experience : Option ExperienceData
  target_job : Option JobData
  extracted_requirements : Option Extraction
  interview_plan : Option InterviewPlan
  difficulty_level : Option String
  agent_interactions : List AgentInteraction
  completed_at : Option String
  last_updated : Option String
deriving DecidableEq, Repr

/-- A fresh session dict, before the four initialization steps
(session_manager.py:52-60). -/
def new_session_data (session_id now : String) : SessionData :=
  { session_id := session_id, created_at := now, status := "initializing"
    error := none, experience := none, target_job := none
    extracted_requirements := none, interview_plan := none
    difficulty_level := none, agent_interactions := []
    completed_at := none, last_updated := none }

/-- The in-memory state of a `SessionManager` (session_manager.py:27-30):
the `active_sessions` dict, the `session_history` list, and the attached
memory bank. -/
structure ManagerState where
  active_sessions : List (String × SessionData)
  session_history : List SessionData
  memory_bank : MemoryState
deriving DecidableEq, Repr

/-- Python dict assignment `d[key] = v`: replace in place when the key
exists, append otherwise. -/
def dict_insert (key : String) (v : SessionData) :
    List (String × SessionData) → List (String × SessionData)
  | [] => [(key, v)]
  | (k, w) :: rest =>
    if k = key then (k, v) :: rest else (k, w) :: dict_insert key v rest

/-- `_generate_user_id` (memory_bank.py:707-712). -/
def generate_user_id (field now : String) : String := "user_" ++ field ++ "_" ++ now

/-- `MemoryBank.store_user_profile` (memory_bank.py:142-203) restricted to
the typed columns: upsert by the generated user id. -/
def store_user_profile (now : String) (exp : ExperienceData) (mb : MemoryState) :
    MemoryState × String :=
  let uid := generate_user_id exp.field now
  if mb.user_profiles.any (fun p => p.user_id == uid) then
    ({ mb with user_profiles := mb.user_profiles.map (fun p =>
        if p.user_id = uid then
          { p with
            last_updated := now
            experience_years := exp.years
            technical_field := exp.field
            current_role := exp.current_role }
        else p) }, uid)
  else
    ({ mb with user_profiles :=
        mb.user_profiles ++ [⟨uid, now, now, exp.years, exp.field, exp.current_role⟩] }, uid)

/-- `MemoryBank.store_session_initialization` (memory_bank.py:233-276):
store the user profile when one was gathered, then insert the session row
(with the session id as the fallback user id). -/
def store_session_initialization (now : String) (sd : SessionData) (mb : MemoryState) :
    MemoryState :=
  let stored : MemoryState × String :=
    match sd.experience with
    | some exp => store_user_profile now exp mb
    | none => (mb, sd.session_id)
  { stored.1 with sessions := stored.1.sessions ++
      [{ session_id := sd.session_id
         user_id := stored.2
         created_at := sd.created_at
         completed_at := none
         status := sd.status
         target_company := (sd.target_job.map JobData.company).getD ""
         target_role := (sd.target_job.map JobData.role).getD ""
         difficulty_level := sd.difficulty_level.getD "intermediate" }] }

/-- `MemoryBank.store_completed_session` = `store_session_record`
(memory_bank.py:278-347).  The method reads `session_record['timestamp']`,
a key `finalize_session`'s session dicts never carry, so the body raises
`KeyError` before any SQL runs; the `except` clause swallows it and
returns `False` with the database unchanged. -/
def store_completed_session (mb : MemoryState) (_session_data : SessionData) :
    MemoryState × Bool :=
  (mb, false)

/-- `SessionManager.get_session_data` (session_manager.py:419-421):
`active_sessions.get(session_id)`. -/
def get_session_data (session_id : String) (st : ManagerState) : Option SessionData :=
  st.active_sessions.lookup session_id

/-- `SessionManager.update_session_status` (session_manager.py:423-433),
without the optional `additional_data` merge. -/
def update_session_status (session_id status now : String) (st : ManagerState) :
    ManagerState × Bool :=
  match st.active_sessions.lookup session_id with
  | some _ =>
    ({ st with active_sessions := st.active_sessions.map (fun p =>
        if p.1 = session_id then
          (p.1, { p.2 with status := status, last_updated := some now })
        else p) }, true)
  | none => (st, false)

/-- `SessionManager.record_agent_interaction` (session_manager.py:435-447). -/
def record_agent_interaction (session_id agent_name interaction_type now : String)
    (st : ManagerState) : ManagerState × Bool :=
  match st.active_sessions.lookup session_id with
  | some _ =>
    ({ st with active_sessions := st.active_sessions.map (fun p =>
        if p.1 = session_id then
          (p.1, { p.2 with agent_interactions :=
            p.2.agent_interactions ++ [⟨now, agent_name, interaction_type⟩] })
        else p) }, true)
  | none => (st, false)

/-- `SessionManager.finalize_session` (session_manager.py:449-464): for an
active id, stamp `completed`/`completed_at`, append to history, delete from
the active dict, hand the record to the memory bank, and return it; for an
unknown id, return the empty dict (modelled `none`) with nothing changed. -/
def finalize_session (session_id now : String) (st : ManagerState) :
    ManagerState × Option SessionData :=
  match st.active_sessions.lookup session_id with
  | some sd =>
    let sd₂ := { sd with status := "completed", completed_at := some now }
    ({ active_sessions := st.active_sessions.filter (fun p => p.1 != session_id)
       session_history := st.session_history ++ [sd₂]
       memory_bank := (store_completed_session st.memory_bank sd₂).1 },
      some sd₂)
  | none => (st, none)

/-- `SessionManager.initialize_session` (session_manager.py:32-108).  The
two interactive gathering steps are I/O; their outcomes enter as `Except`
values, `.error msg` standing for an exception with message `msg` raised
during that step (steps 3 and 4 are pure and cannot raise).  The
`try/except` of the source becomes the match: on an error the session is
marked `failed`, the message recorded, the partial session registered, and
the id still returned. -/
def initialize_session (session_id now : String)
    (step1 : Except String ExperienceData) (step2 : Except String JobData)
    (st : ManagerState) : ManagerState × String :=
  let base := new_session_data session_id now
  match step1 with
  | .error msg =>
    let failed := { base with status := "failed", error := some msg }
    ({ st with active_sessions := dict_insert session_id failed st.active_sessions },
      session_id)
  | .ok exp =>
    match step2 with
    | .error msg =>
      let failed := { base with experience := some exp, status := "failed", error := some msg }
      ({ st with active_sessions := dict_insert session_id failed st.active_sessions },
        session_id)
    | .ok job =>
      let ext := perform_context_engineering job.description
      let plan := create_adaptive_interview_plan exp job ext
      let sd := { base with
                  experience := some exp
                  target_job := some job
                  extracted_requirements := some ext
                  interview_plan := some plan
                  status := "initialized"
                  difficulty_level := some (calculate_initial_difficulty exp ext) }
      ({ st with
          active_sessions := dict_insert session_id sd st.active_sessions
          memory_bank := store_session_initialization now sd st.memory_bank }, session_id)


/-! ## Sample data used by counterexamples and witnesses -/

/-- A junior user profile (1 year, bucketed `junior`). -/
def exp_junior : ExperienceData := ⟨1, "front-end", "developer", [], "junior"⟩

/-- A mid-level user profile (4 years, bucketed `mid`). -/
def exp_mid : ExperienceData := ⟨4, "back-end", "developer", [], "mid"⟩

/-- A senior user profile (8 years, bucketed `senior`). -/
def exp_senior : ExperienceData := ⟨8, "back-end", "tech lead", [], "senior"⟩

/-- A target job whose description matches no extraction keyword. -/
def job_sample : JobData := ⟨"Acme", "Engineer", "hello world", "", 11, "2025-01-01T00:00:00"⟩

/-- An extraction with `beginner` complexity and no triggered focus area. -/
def ext_beginner : Extraction := ⟨[], [], [], [], [], [], ["general_technical"], "beginner"⟩

/-- An extraction with `advanced` complexity and no triggered focus area. -/
def ext_advanced : Extraction := ⟨[], [], [], [], [], [], ["general_technical"], "advanced"⟩

/-- An extraction with `intermediate` complexity and no triggered focus area. -/
def ext_intermediate : Extraction :=
  ⟨[], [], [], [], [], [], ["general_technical"], "intermediate"⟩

/-- An extraction with the `coding_problems` focus area and job level `mid`. -/
def ext_coding_mid : Extraction := ⟨[], [], [], [], [], [], ["coding_problems"], "mid"⟩

/-- The ordinal position of a seniority level in the claimed ordering
`junior < mid < senior`. -/
def level_rank (s : String) : Nat :=
  if s = "junior" then 1 else if s = "mid" then 2 else if s = "senior" then 3 else 0

/-- The specification-side comparator for gap matching: the higher of the
two levels under `junior < mid < senior` (stated independently of
`match_difficulty_to_gap`, to be compared with it). -/
def higher_level (a b : String) : String := if level_rank a < level_rank b then b else a

/-- A memory-bank state holding one profile, one old completed session, one
live (non-completed) session, and one old metric row. -/
def purge_state : MemoryState :=
  ⟨[⟨"u1", "2024-01-01", "2024-06-01", 4, "back-end", "developer"⟩],
   [⟨"s1", "u1", "2023-01-01", some "2023-01-02", "completed", "Acme", "Engineer",
      "intermediate"⟩,
    ⟨"s2", "u1", "2023-06-01", none, "initialized", "Acme", "Engineer", "intermediate"⟩],
   [⟨"s1", "u1", "2023-01-02", "communication", "category_score", 3/5⟩]⟩

/-- The live session row of `purge_state`. -/
def live_session : SessionRow :=
  ⟨"s2", "u1", "2023-06-01", none, "initialized", "Acme", "Engineer", "intermediate"⟩

/-- A memory-bank state whose single metric row gives one category exactly
one recorded score (0.9). -/
def one_score_state : MemoryState :=
  ⟨[], [], [⟨"s1", "u1", "2025-01-01", "communication", "category_score", 9/10⟩]⟩

/-- Eight `category_score` rows for user `u`: `communication`
[0.4, 0.4, 0.6], `clarity` [0.6, 0.6, 0.55], `coding` [0.8, 0.9]. -/
def demo_metrics : List MetricRow :=
  [⟨"s1", "u", "2025-01-01", "communication", "category_score", 2/5⟩,
   ⟨"s2", "u", "2025-01-02", "communication", "category_score", 2/5⟩,
   ⟨"s3", "u", "2025-01-03", "communication", "category_score", 3/5⟩,
   ⟨"s1", "u", "2025-01-04", "clarity", "category_score", 3/5⟩,
   ⟨"s2", "u", "2025-01-05", "clarity", "category_score", 3/5⟩,
   ⟨"s3", "u", "2025-01-06", "clarity", "category_score", 11/20⟩,
   ⟨"s2", "u", "2025-01-07", "coding", "category_score", 4/5⟩,
   ⟨"s3", "u", "2025-01-08", "coding", "category_score", 9/10⟩]

/-- A memory-bank state with `demo_metrics` and one completed session. -/
def demo_state : MemoryState :=
  ⟨[], [⟨"s1", "u", "2025-01-01", some "2025-01-02", "completed", "Acme", "Eng",
    "intermediate"⟩], demo_metrics⟩

/-- A session dict as first registered, for the lifecycle witnesses. -/
def session_sample : SessionData := new_session_data "sid1" "2025-01-01T00:00:00"

/-- A manager state with the single active session `sid1`. -/
def mgr_state : ManagerState := ⟨[("sid1", session_sample)], [], ⟨[], [], []⟩⟩

/-- A manager state with no active sessions. -/
def empty_mgr : ManagerState := ⟨[], [], ⟨[], [], []⟩⟩

/-! ## Helper lemmas -/

/-- Rows removed by a filter are not counted again by the matching
predicate. -/
theorem countP_filter_not {α : Type} (p : α → Bool) (l : List α) :
    (l.filter (fun a => !p a)).countP p = 0 := by
  induction l with
  | nil => rfl
  | cons a t ih =>
    by_cases h : p a = true
    · simp [List.filter, h, ih]
    · simp at h
      simp [List.filter, h, List.countP_cons, ih]

/-- The keys after one `add_score` step: unchanged when the category is
already present, extended by it otherwise. -/
theorem add_score_fst (acc : List (String × List ℚ)) (cat : String) (v : ℚ) :
    (add_score acc cat v).map Prod.fst =
      if cat ∈ acc.map Prod.fst then acc.map Prod.fst else acc.map Prod.fst ++ [cat] := by
  induction acc with
  | nil => simp [add_score]
  | cons p rest ih =>
    obtain ⟨c, s⟩ := p
    by_cases h : c = cat
    · subst h; simp [add_score]
    · simp only [add_score, if_neg h, List.map_cons]
      rw [ih]
      by_cases hm : cat ∈ rest.map Prod.fst <;>
        simp [List.mem_cons, hm, Ne.symm h]

/-- The grouping fold preserves distinctness of the category keys. -/
theorem group_aux_nodup (ms : List MetricRow) :
    ∀ (acc : List (String × List ℚ)), (acc.map Prod.fst).Nodup →
    ((ms.foldl (fun acc m => add_score acc m.category m.metric_value) acc).map
      Prod.fst).Nodup := by
  induction ms with
  | nil => intro acc h; simpa
  | cons m t ih =>
    intro acc h
    apply ih
    rw [add_score_fst]
    split_ifs with hm
    · exact h
    · simp [List.nodup_append, h, hm]

/-- Each category appears at most once in `group_scores`. -/
theorem group_scores_nodup (ms : List MetricRow) : ((group_scores ms).map Prod.fst).Nodup :=
  group_aux_nodup ms [] (by simp)

/-- In an association list with distinct keys, a key determines its value. -/
theorem keys_nodup_unique {β : Type} {l : List (String × β)} (h : (l.map Prod.fst).Nodup)
    {c : String} {s₁ s₂ : β} (h1 : (c, s₁) ∈ l) (h2 : (c, s₂) ∈ l) : s₁ = s₂ := by
  induction l with
  | nil => cases h1
  | cons p rest ih =>
    simp only [List.map_cons, List.nodup_cons] at h
    rcases List.mem_cons.mp h1 with e1 | h1'
    · rcases List.mem_cons.mp h2 with e2 | h2'
      · exact congrArg Prod.snd (e1.trans e2.symm)
      · exfalso
        apply h.1
        rw [← e1]
        show c ∈ rest.map Prod.fst
        exact List.mem_map_of_mem Prod.fst h2'
    · rcases List.mem_cons.mp h2 with e2 | h2'
      · exfalso
        apply h.1
        rw [← e2]
        show c ∈ rest.map Prod.fst
        exact List.mem_map_of_mem Prod.fst h1'
      · exact ih h.2 h1' h2'

/-- The three trend labels characterised by the ±0.1 band on the trend
value. -/
theorem trend_label_iff (t : ℚ) :
    (trend_label_of t = "improving" ↔ 1/10 < t) ∧
    (trend_label_of t = "declining" ↔ t < -(1/10)) ∧
    (trend_label_of t = "stable" ↔ -(1/10) ≤ t ∧ t ≤ 1/10) := by
  unfold trend_label_of
  split_ifs with h1 h2 <;>
    refine ⟨⟨fun hh => ?_, fun hh => ?_⟩, ⟨fun hh => ?_, fun hh => ?_⟩,
      ⟨fun hh => ?_, fun hh => ?_⟩⟩ <;>
    first
      | rfl
      | linarith
      | exact absurd hh (by decide)
      | exact absurd hh h1
      | exact absurd hh h2
      | exact ⟨by linarith, by linarith⟩

/-- When the user has metric rows, the insight fields are the three
accumulators over the grouped category performance. -/
theorem insights_ne (user_id : String) (s : MemoryState)
    (hne : user_category_metrics user_id s ≠ []) :
    (get_learning_insights user_id s).performance_trends =
        trends_of (category_performance user_id s) ∧
    (get_learning_insights user_id s).strong_areas =
        strong_areas_of (category_performance user_id s) ∧
    (get_learning_insights user_id s).improvement_areas =
        improvement_areas_of (category_performance user_id s) := by
  simp only [get_learning_insights, category_performance]
  rw [if_neg hne]
  exact ⟨rfl, rfl, rfl⟩

/-- A key filtered out of the active-session list is no longer found. -/
theorem lookup_filter_self (sid : String) (l : List (String × SessionData)) :
    (l.filter (fun p => p.1 != sid)).lookup sid = none := by
  induction l with
  | nil => rfl
  | cons p rest ih =>
    obtain ⟨k, w⟩ := p
    by_cases h : k = sid
    · subst h
      simp only [List.filter, bne_self_eq_false]
      exact ih
    · have h3 : (k != sid) = true := by
        simp [h]
      have h2 : (sid == k) = false := by
        simp [Ne.symm h]
      simp only [List.filter, h3]
      simp only [List.lookup, h2]
      exact ih

/-- Looking up the key just written by a Python-dict assignment yields the
written value. -/
theorem lookup_dict_insert (key : String) (v : SessionData)
    (l : List (String × SessionData)) :
    (dict_insert key v l).lookup key = some v := by
  induction l with
  | nil => simp [dict_insert, List.lookup]
  | cons p rest ih =>
    obtain ⟨k, w⟩ := p
    by_cases h : k = key
    · subst h
      simp [dict_insert, List.lookup]
    · have h2 : (key == k) = false := by
        simp [Ne.symm h]
      simp [dict_insert, h, List.lookup, h2, ih]

/-- The grouped category performance of `demo_state`, computed. -/
theorem demo_cp : category_performance "u" demo_state =
    [("communication", [(2:ℚ)/5, 2/5, 3/5]),
     ("clarity", [(3:ℚ)/5, 3/5, 11/20]),
     ("coding", [(4:ℚ)/5, 9/10])] := rfl

/-! ## C1 — required/preferred split of the technology stack -/

/-- C1 counterexample: the empty (whitespace-only) job description is mapped
to the default extraction template, whose `technology_stack`
(`['General Programming']`) is non-empty while
`required_technical_skills ++ preferred_skills` is a different five-element
list — the claimed equation fails for this extraction although its
technology stack is non-empty. -/
theorem C1_counterexample :
    (perform_context_engineering "").technology_stack ≠ [] ∧
    (perform_context_engineering "").required_technical_skills ++
        (perform_context_engineering "").preferred_skills ≠
      (perform_context_engineering "").technology_stack := by decide

/-- C1 (amended): for every job description with non-whitespace content —
i.e. whenever extraction takes the keyword path rather than the default
template — `required_technical_skills ++ preferred_skills` equals
`technology_stack` and `required_technical_skills` has length at most 6. -/
theorem C1_required_preferred_split (jd : String) (h : strTrim jd ≠ "") :
    (perform_context_engineering jd).required_technical_skills ++
        (perform_context_engineering jd).preferred_skills =
      (perform_context_engineering jd).technology_stack ∧
    (perform_context_engineering jd).required_technical_skills.length ≤ 6 := by
  unfold perform_context_engineering
  rw [if_neg h]
  refine ⟨List.take_append_drop 6 _, ?_⟩
  simp [List.length_take]

/-- C1 witness: the split property evaluated on a concrete description. -/
theorem C1_witness :
    strTrim "python and react" ≠ "" ∧
    ((perform_context_engineering "python and react").required_technical_skills ++
        (perform_context_engineering "python and react").preferred_skills =
      (perform_context_engineering "python and react").technology_stack ∧
    (perform_context_engineering "python and react").required_technical_skills.length ≤ 6) :=
  ⟨by decide, C1_required_preferred_split "python and react" (by decide)⟩

/-! ## C2 — non-emptiness of the interview plan -/

/-- C2 counterexample: the description "hello world" extracts to focus
areas exactly `['general_technical']`, and for a junior user the plan
builder appends no phase at all — the phase list is empty. -/
theorem C2_counterexample :
    (perform_context_engineering "hello world").interview_focus_areas =
      ["general_technical"] ∧
    (create_adaptive_interview_plan exp_junior job_sample
        (perform_context_engineering "hello world")).session_structure = [] := by decide

/-- C2 (amended): the plan has at least one phase whenever the user's
experience level is `mid` or `senior` (the behavioral phase fires) or the
focus areas contain one of the four phase triggers; a junior user whose
extraction yields only `general_technical` gets an empty phase list. -/
theorem C2_plan_nonempty (experience_data : ExperienceData) (job_data : JobData)
    (extracted_skills : Extraction)
    (h : experience_data.experience_level = "mid" ∨
      experience_data.experience_level = "senior" ∨
      "coding_problems" ∈ extracted_skills.interview_focus_areas ∨
      "system_design" ∈ extracted_skills.interview_focus_areas ∨
      "technical_knowledge" ∈ extracted_skills.interview_focus_areas ∨
      "behavioral_leadership" ∈ extracted_skills.interview_focus_areas) :
    1 ≤ (create_adaptive_interview_plan experience_data job_data
        extracted_skills).session_structure.length := by
  simp only [create_adaptive_interview_plan, session_phases]
  rcases h with h|h|h|h|h|h <;> split_ifs <;> simp_all

/-- C2 witness: a mid-level user with a `general_technical`-only extraction
still gets a (behavioral) phase. -/
theorem C2_witness :
    1 ≤ (create_adaptive_interview_plan exp_mid job_sample
        ext_intermediate).session_structure.length :=
  C2_plan_nonempty exp_mid job_sample ext_intermediate (Or.inl rfl)

/-! ## C3 — initial difficulty -/

/-- C3 counterexample: a senior user facing a beginner job is mapped to
`'beginner'` by `_calculate_initial_difficulty` (the `or` branch fires on
`job_complexity == 'beginner'`), not to `'intermediate'` as claimed. -/
theorem C3_counterexample :
    calculate_initial_difficulty exp_senior ext_beginner = "beginner" ∧
    calculate_initial_difficulty exp_senior ext_beginner ≠ "intermediate" := by decide

/-- C3 (amended): senior user with advanced job → `advanced`; a junior user
→ `beginner`; a beginner job → `beginner` (including for a senior user);
every remaining combination → `intermediate`. -/
theorem C3_initial_difficulty (experience_data : ExperienceData)
    (extracted_skills : Extraction) :
    (experience_data.experience_level = "senior" →
      extracted_skills.complexity_level = "advanced" →
      calculate_initial_difficulty experience_data extracted_skills = "advanced") ∧
    (experience_data.experience_level = "junior" →
      calculate_initial_difficulty experience_data extracted_skills = "beginner") ∧
    (extracted_skills.complexity_level = "beginner" →
      calculate_initial_difficulty experience_data extracted_skills = "beginner") ∧
    (¬(experience_data.experience_level = "senior" ∧
        extracted_skills.complexity_level = "advanced") →
      experience_data.experience_level ≠ "junior" →
      extracted_skills.complexity_level ≠ "beginner" →
      calculate_initial_difficulty experience_data extracted_skills = "intermediate") := by
  simp only [calculate_initial_difficulty]
  split_ifs with h1 h2 <;> refine ⟨?_, ?_, ?_, ?_⟩ <;> intros <;> simp_all

/-- C3 witness: the four difficulty branches evaluated at concrete
user/job pairs. -/
theorem C3_witness :
    calculate_initial_difficulty exp_senior ext_advanced = "advanced" ∧
    calculate_initial_difficulty exp_junior ext_advanced = "beginner" ∧
    calculate_initial_difficulty exp_senior ext_beginner = "beginner" ∧
    calculate_initial_difficulty exp_mid ext_intermediate = "intermediate" :=
  ⟨(C3_initial_difficulty exp_senior ext_advanced).1 rfl rfl,
   (C3_initial_difficulty exp_junior ext_advanced).2.1 rfl,
   (C3_initial_difficulty exp_senior ext_beginner).2.2.1 rfl,
   (C3_initial_difficulty exp_mid ext_intermediate).2.2.2 (by decide) (by decide) (by decide)⟩

/-! ## C4 — coding-assessment difficulty is the higher ordinal level -/

/-- On the nine ordinal-level pairs, `_match_difficulty_to_gap` returns
exactly the higher of the two levels. -/
theorem match_gap_eq_higher (u j : String)
    (hu : u ∈ (["junior", "mid", "senior"] : List String))
    (hj : j ∈ (["junior", "mid", "senior"] : List String)) :
    match_difficulty_to_gap u j = higher_level u j := by
  simp only [List.mem_cons, List.mem_singleton, List.not_mem_nil, or_false] at hu hj
  rcases hu with rfl|rfl|rfl <;> rcases hj with rfl|rfl|rfl <;> decide

/-- C4: whenever `coding_problems` is among the focus areas, the plan
contains the `coding_assessment` phase (30 minutes, 2 questions) whose
difficulty is the higher of the user's and the job's level under
`junior < mid < senior`, for every pair of levels from that ordering. -/
theorem C4_coding_phase_difficulty (experience_data : ExperienceData)
    (job_data : JobData) (extracted_skills : Extraction)
    (hc : "coding_problems" ∈ extracted_skills.interview_focus_areas)
    (hu : experience_data.experience_level ∈ (["junior", "mid", "senior"] : List String))
    (hj : extracted_skills.complexity_level ∈ (["junior", "mid", "senior"] : List String)) :
    (⟨"coding_assessment", 30, 2,
        higher_level experience_data.experience_level
          extracted_skills.complexity_level⟩ : Phase) ∈
      (create_adaptive_interview_plan experience_data job_data
        extracted_skills).session_structure := by
  simp only [create_adaptive_interview_plan, session_phases]
  rw [if_pos hc, match_gap_eq_higher _ _ hu hj]
  simp [List.mem_append]

/-- C4 witness: a senior user and a mid-level job produce the
coding-assessment phase at the senior (higher) difficulty. -/
theorem C4_witness :
    (⟨"coding_assessment", 30, 2,
        higher_level exp_senior.experience_level ext_coding_mid.complexity_level⟩ : Phase) ∈
      (create_adaptive_interview_plan exp_senior job_sample
        ext_coding_mid).session_structure :=
  C4_coding_phase_difficulty exp_senior job_sample ext_coding_mid
    (by decide) (by decide) (by decide)

/-! ## C5 — idempotence and selectivity of the purge -/

/-- C5: purging twice with the same cutoff and no intervening writes
removes 0 records the second time; user-profile rows are untouched by both
runs, and every non-completed session row survives both runs. -/
theorem C5_purge_idempotent (cutoff : String) (s : MemoryState) :
    (cleanup_old_data cutoff (cleanup_old_data cutoff s).1).2 = 0 ∧
    (cleanup_old_data cutoff s).1.user_profiles = s.user_profiles ∧
    (cleanup_old_data cutoff (cleanup_old_data cutoff s).1).1.user_profiles =
      s.user_profiles ∧
    (∀ r ∈ s.sessions, r.status ≠ "completed" →
      r ∈ (cleanup_old_data cutoff s).1.sessions ∧
      r ∈ (cleanup_old_data cutoff (cleanup_old_data cutoff s).1).1.sessions) := by
  refine ⟨?_, rfl, rfl, ?_⟩
  · simp only [cleanup_old_data, countP_filter_not]
  · intro r hr hstat
    have hpred : (!(strLt r.created_at cutoff && r.status == "completed")) = true := by
      simp [hstat]
    constructor
    · exact List.mem_filter.mpr ⟨hr, hpred⟩
    · exact List.mem_filter.mpr ⟨List.mem_filter.mpr ⟨hr, hpred⟩, hpred⟩

/-- C5 witness: on a state with one old metric, one old completed session
and one live session, the first purge removes 2 rows, the second removes 0,
profiles are unchanged, and the live session survives both runs. -/
theorem C5_witness :
    (cleanup_old_data "2024-01-01" purge_state).2 = 2 ∧
    (cleanup_old_data "2024-01-01" (cleanup_old_data "2024-01-01" purge_state).1).2 = 0 ∧
    (cleanup_old_data "2024-01-01" purge_state).1.user_profiles =
      purge_state.user_profiles ∧
    live_session ∈
      (cleanup_old_data "2024-01-01" (cleanup_old_data "2024-01-01"
        purge_state).1).1.sessions :=
  ⟨by decide,
   (C5_purge_idempotent "2024-01-01" purge_state).1,
   (C5_purge_idempotent "2024-01-01" purge_state).2.1,
   ((C5_purge_idempotent "2024-01-01" purge_state).2.2.2 live_session (by decide)
     (by decide)).2⟩

/-! ## C6 — trend classification -/

/-- C6: a category has a trend entry exactly when it has at least two
recorded scores, and the entry's label is `improving` iff
last − first > 0.1, `declining` iff last − first < −0.1, and `stable` iff
the difference lies in the ±0.1 band. -/
theorem C6_trend_classification (user_id : String) (s : MemoryState) (cat : String)
    (scores : List ℚ) (hmem : (cat, scores) ∈ category_performance user_id s) :
    ((∃ e, (cat, e) ∈ (get_learning_insights user_id s).performance_trends) ↔
      2 ≤ scores.length) ∧
    (2 ≤ scores.length →
      (cat, mk_trend_entry scores) ∈ (get_learning_insights user_id s).performance_trends ∧
      ((mk_trend_entry scores).trend = "improving" ↔ 1/10 < trend_of scores) ∧
      ((mk_trend_entry scores).trend = "declining" ↔ trend_of scores < -(1/10)) ∧
      ((mk_trend_entry scores).trend = "stable" ↔
        -(1/10) ≤ trend_of scores ∧ trend_of scores ≤ 1/10)) := by
  have hne : user_category_metrics user_id s ≠ [] := by
    intro h0
    rw [category_performance, h0] at hmem
    simp [group_scores] at hmem
  have hins := (insights_ne user_id s hne).1
  have hmk : (mk_trend_entry scores).trend = trend_label_of (trend_of scores) := rfl
  constructor
  · constructor
    · rintro ⟨e, he⟩
      rw [hins] at he
      obtain ⟨⟨c, l⟩, hcl, heq⟩ := List.mem_filterMap.mp he
      by_cases hl : 2 ≤ l.length
      · rw [if_pos hl] at heq
        obtain ⟨hc, -⟩ := Prod.mk.injEq _ _ _ _ ▸ Option.some.inj heq
        subst hc
        have hls := keys_nodup_unique (group_scores_nodup _) hcl hmem
        exact hls ▸ hl
      · rw [if_neg hl] at heq
        cases heq
    · intro h2
      refine ⟨mk_trend_entry scores, ?_⟩
      rw [hins]
      exact List.mem_filterMap.mpr ⟨(cat, scores), hmem, by rw [if_pos h2]⟩
  · intro h2
    refine ⟨?_, ?_, ?_, ?_⟩
    · rw [hins]
      exact List.mem_filterMap.mpr ⟨(cat, scores), hmem, by rw [if_pos h2]⟩
    · rw [hmk]
      exact (trend_label_iff (trend_of scores)).1
    · rw [hmk]
      exact (trend_label_iff (trend_of scores)).2.1
    · rw [hmk]
      exact (trend_label_iff (trend_of scores)).2.2

/-- C6 witness: `communication` scores [0.4, 0.4, 0.6] produce an
`improving` trend entry and `clarity` scores [0.6, 0.6, 0.55] a `stable`
one. -/
theorem C6_witness :
    ("communication", mk_trend_entry [(2:ℚ)/5, 2/5, 3/5]) ∈
        (get_learning_insights "u" demo_state).performance_trends ∧
    (mk_trend_entry [(2:ℚ)/5, 2/5, 3/5]).trend = "improving" ∧
    ("clarity", mk_trend_entry [(3:ℚ)/5, 3/5, 11/20]) ∈
        (get_learning_insights "u" demo_state).performance_trends ∧
    (mk_trend_entry [(3:ℚ)/5, 3/5, 11/20]).trend = "stable" := by
  obtain ⟨hm1, hi1, -, -⟩ :=
    (C6_trend_classification "u" demo_state "communication" [2/5, 2/5, 3/5]
      (by rw [demo_cp]; simp)).2 (by decide)
  obtain ⟨hm2, -, -, hs2⟩ :=
    (C6_trend_classification "u" demo_state "clarity" [3/5, 3/5, 11/20]
      (by rw [demo_cp]; simp)).2 (by decide)
  have ht1 : trend_of [(2:ℚ)/5, 2/5, 3/5] = 3/5 - 2/5 := rfl
  have ht2 : trend_of [(3:ℚ)/5, 3/5, 11/20] = 11/20 - 3/5 := rfl
  refine ⟨hm1, hi1.mpr ?_, hm2, hs2.mpr ?_⟩
  · rw [ht1]; norm_num
  · rw [ht2]; constructor <;> norm_num

/-! ## C7 — strong and improvement bands -/

/-- C7 counterexample: a category with a single recorded score of 0.9 has
average ≥ 0.7 yet is not placed in `strong_areas`, because the band
classification only runs for categories with at least two scores. -/
theorem C7_counterexample :
    ("communication", [(9:ℚ)/10]) ∈ category_performance "u1" one_score_state ∧
    (7:ℚ)/10 ≤ avg_of [(9:ℚ)/10] ∧
    "communication" ∉ (get_learning_insights "u1" one_score_state).strong_areas := by
  have heq : category_performance "u1" one_score_state =
      [("communication", [(9:ℚ)/10])] := rfl
  have hstrong : (get_learning_insights "u1" one_score_state).strong_areas = [] := rfl
  refine ⟨?_, ?_, ?_⟩
  · rw [heq]; simp
  · norm_num [avg_of]
  · rw [hstrong]; simp

/-- C7 (amended): among the categories with at least two recorded scores,
average ≥ 0.7 characterises membership in `strong_areas`, average < 0.5
membership in `improvement_areas`, and averages in [0.5, 0.7) land in
neither; categories with fewer than two scores are classified into neither
list regardless of their average. -/
theorem C7_score_bands (user_id : String) (s : MemoryState) (cat : String)
    (scores : List ℚ)
    (hmem : (cat, scores) ∈ category_performance user_id s) (h2 : 2 ≤ scores.length) :
    (cat ∈ (get_learning_insights user_id s).strong_areas ↔ 7/10 ≤ avg_of scores) ∧
    (cat ∈ (get_learning_insights user_id s).improvement_areas ↔ avg_of scores < 1/2) ∧
    (1/2 ≤ avg_of scores → avg_of scores < 7/10 →
      cat ∉ (get_learning_insights user_id s).strong_areas ∧
      cat ∉ (get_learning_insights user_id s).improvement_areas) := by
  have hne : user_category_metrics user_id s ≠ [] := by
    intro h0
    rw [category_performance, h0] at hmem
    simp [group_scores] at hmem
  have hstr := (insights_ne user_id s hne).2.1
  have himp := (insights_ne user_id s hne).2.2
  have hs : cat ∈ (get_learning_insights user_id s).strong_areas ↔
      7/10 ≤ avg_of scores := by
    rw [hstr]
    constructor
    · intro hin
      obtain ⟨⟨c, l⟩, hcl, heq⟩ := List.mem_filterMap.mp hin
      by_cases hc : 2 ≤ l.length ∧ 7/10 ≤ avg_of l
      · rw [if_pos hc] at heq
        obtain rfl := Option.some.inj heq
        have hls := keys_nodup_unique (group_scores_nodup _) hcl hmem
        exact hls ▸ hc.2
      · rw [if_neg hc] at heq
        cases heq
    · intro havg
      exact List.mem_filterMap.mpr ⟨(cat, scores), hmem, by rw [if_pos ⟨h2, havg⟩]⟩
  have hi : cat ∈ (get_learning_insights user_id s).improvement_areas ↔
      avg_of scores < 1/2 := by
    rw [himp]
    constructor
    · intro hin
      obtain ⟨⟨c, l⟩, hcl, heq⟩ := List.mem_filterMap.mp hin
      by_cases hc : 2 ≤ l.length ∧ avg_of l < 1/2
      · rw [if_pos hc] at heq
        obtain rfl := Option.some.inj heq
        have hls := keys_nodup_unique (group_scores_nodup _) hcl hmem
        exact hls ▸ hc.2
      · rw [if_neg hc] at heq
        cases heq
    · intro havg
      exact List.mem_filterMap.mpr ⟨(cat, scores), hmem, by rw [if_pos ⟨h2, havg⟩]⟩
  refine ⟨hs, hi, fun hge hlt => ⟨fun hin => ?_, fun hin => ?_⟩⟩
  · exact absurd (hs.mp hin) (by linarith)
  · exact absurd (hi.mp hin) (by linarith)

/-- C7 witness: `coding` (average 0.85 over two scores) lands in the strong
areas and `communication` (average 7/15 < 0.5 over three scores) in the
improvement areas. -/
theorem C7_witness :
    "coding" ∈ (get_learning_insights "u" demo_state).strong_areas ∧
    "communication" ∈ (get_learning_insights "u" demo_state).improvement_areas := by
  constructor
  · refine ((C7_score_bands "u" demo_state "coding" [4/5, 9/10]
      (by rw [demo_cp]; simp) (by decide)).1).mpr ?_
    norm_num [avg_of]
  · refine ((C7_score_bands "u" demo_state "communication" [2/5, 2/5, 3/5]
      (by rw [demo_cp]; simp) (by decide)).2.1).mpr ?_
    norm_num [avg_of]

/-! ## C8 — finalize semantics -/

/-- C8: finalizing an unknown session id returns the empty result and
changes nothing (active set, history and store are the same state); for an
active id, finalize returns the completion-stamped session, removes the id
from the active set, and appends the stamped session to the history. -/
theorem C8_finalize_semantics (session_id now : String) (st : ManagerState) :
    (st.active_sessions.lookup session_id = none →
      finalize_session session_id now st = (st, none)) ∧
    (∀ sd, st.active_sessions.lookup session_id = some sd →
      (finalize_session session_id now st).2 =
        some { sd with status := "completed", completed_at := some now } ∧
      (finalize_session session_id now st).1.active_sessions.lookup session_id = none ∧
      (finalize_session session_id now st).1.session_history =
        st.session_history ++
          [{ sd with status := "completed", completed_at := some now }]) := by
  constructor
  · intro h
    simp [finalize_session, h]
  · intro sd h
    simp [finalize_session, h, store_completed_session, lookup_filter_self]

/-- C8 witness: both branches evaluated on a one-session manager state. -/
theorem C8_witness :
    finalize_session "nope" "2025-02-01" mgr_state = (mgr_state, none) ∧
    (finalize_session "sid1" "2025-02-01" mgr_state).2 =
      some { session_sample with
        status := "completed"
        completed_at := some "2025-02-01" } ∧
    (finalize_session "sid1" "2025-02-01" mgr_state).1.active_sessions.lookup "sid1" =
      none ∧
    (finalize_session "sid1" "2025-02-01" mgr_state).1.session_history =
      mgr_state.session_history ++
        [{ session_sample with
          status := "completed"
          completed_at := some "2025-02-01" }] :=
  ⟨(C8_finalize_semantics "nope" "2025-02-01" mgr_state).1 rfl,
   (C8_finalize_semantics "sid1" "2025-02-01" mgr_state).2 session_sample rfl⟩

/-! ## C9 — fail-soft initialization -/

/-- C9: if one of the interactive gathering steps raises (modelled as an
`Except.error` outcome), initialization still returns the session id and
registers a partial session in the active set with status `failed` and the
exception message recorded — the exception does not propagate. -/
theorem C9_fail_soft (session_id now msg : String)
    (step1 : Except String ExperienceData) (step2 : Except String JobData)
    (st : ManagerState)
    (h : step1 = .error msg ∨ (∃ exp, step1 = .ok exp ∧ step2 = .error msg)) :
    (initialize_session session_id now step1 step2 st).2 = session_id ∧
    ∃ sd, ((initialize_session session_id now step1 step2 st).1.active_sessions.lookup
        session_id = some sd) ∧
      sd.status = "failed" ∧ sd.error = some msg := by
  rcases h with h | ⟨exp, h1, h2⟩
  · subst h
    exact ⟨rfl, _, lookup_dict_insert session_id _ st.active_sessions, rfl, rfl⟩
  · subst h1
    subst h2
    exact ⟨rfl, _, lookup_dict_insert session_id _ st.active_sessions, rfl, rfl⟩

/-- C9 witness: a failure in step 1 still yields the id and a registered
`failed` session holding the message. -/
theorem C9_witness :
    (initialize_session "sid2" "2025-01-05" (.error "boom") (.ok job_sample)
      empty_mgr).2 = "sid2" ∧
    ((initialize_session "sid2" "2025-01-05" (.error "boom") (.ok job_sample)
        empty_mgr).1.active_sessions.lookup "sid2").any
      (fun sd => sd.status == "failed" && sd.error == some "boom") = true := by
  obtain ⟨h1, sd, hl, hs, he⟩ :=
    C9_fail_soft "sid2" "2025-01-05" "boom" (.error "boom") (.ok job_sample) empty_mgr
      (Or.inl rfl)
  refine ⟨h1, ?_⟩
  rw [hl]
  simp [Option.any, hs, he]

/-! ## C10 — finalized sessions are no longer addressable -/

/-- C10: after finalizing an active session, its id resolves to nothing:
`get_session_data` returns `none`, `record_agent_interaction` and
`update_session_status` return `false`, while the completed session lives
only in the history list. -/
theorem C10_finalized_unaddressable (session_id now : String) (st : ManagerState)
    (sd : SessionData) (h : st.active_sessions.lookup session_id = some sd) :
    get_session_data session_id (finalize_session session_id now st).1 = none ∧
    (∀ agent_name interaction_type now₂,
      (record_agent_interaction session_id agent_name interaction_type now₂
        (finalize_session session_id now st).1).2 = false) ∧
    (∀ status now₂,
      (update_session_status session_id status now₂
        (finalize_session session_id now st).1).2 = false) ∧
    { sd with status := "completed", completed_at := some now } ∈
      (finalize_session session_id now st).1.session_history := by
  have hl : (finalize_session session_id now st).1.active_sessions.lookup session_id =
      none := by
    simp [finalize_session, h, lookup_filter_self]
  refine ⟨?_, ?_, ?_, ?_⟩
  · simp [get_session_data, hl]
  · intro a t n
    simp [record_agent_interaction, hl]
  · intro s2 n
    simp [update_session_status, hl]
  · simp [finalize_session, h]

/-- C10 witness: the three accessors evaluated right after a concrete
finalize. -/
theorem C10_witness :
    get_session_data "sid1" (finalize_session "sid1" "2025-02-01" mgr_state).1 = none ∧
    (record_agent_interaction "sid1" "interview_coach" "question" "2025-02-02"
      (finalize_session "sid1" "2025-02-01" mgr_state).1).2 = false ∧
    (update_session_status "sid1" "active" "2025-02-02"
      (finalize_session "sid1" "2025-02-01" mgr_state).1).2 = false :=
  have h := C10_finalized_unaddressable "sid1" "2025-02-01" mgr_state session_sample rfl
  ⟨h.1, h.2.1 "interview_coach" "question" "2025-02-02", h.2.2.1 "active" "2025-02-02"⟩

end Atic
